import Mathlib

/-!
Shallow embedding of the queue/timer derived-state logic of the
Muncoordinated browser client (files `Auth.tsx`, `Member.tsx`, `Caucus.tsx`
and `caucus/CaucusQueuer.tsx`).

JavaScript conventions used throughout the embedding:
* an optional field `x?: T` is `Option T`; a JS value that may be
  `undefined` is `none`;
* JS truthiness is made explicit at each use site: `undefined` and `null`
  are falsy, the number `0` is falsy, the empty string is falsy, every
  object (including the empty record `{}`) is truthy;
* a JS record (object used as a map) is an association list
  `List (String × β)`; `members[id]` is association lookup, and reading a
  field of `undefined` is a thrown `TypeError`, modelled by `JsResult`.
-/

set_option autoImplicit false

namespace Muncoordinated

/-- The enum `Unit` from `TimerSetter`, with values Minutes and Seconds.
Both values are nonempty strings, hence truthy in JS. -/
inductive Unit where
  | Minutes
  | Seconds
  deriving DecidableEq, Repr

/-- The enum `Stance` from `caucus/SpeakerFeed`. -/
inductive Stance where
  | For
  | Neutral
  | Against
  deriving DecidableEq, Repr

/-- The enum `Rank` from `Member.tsx`. -/
inductive Rank where
  | Veto
  | Standard
  | NGO
  | Observer
  deriving DecidableEq, Repr

/-- The interface `MemberData` from `Member.tsx`; `authToken?: string` is
optional. -/
structure MemberData where
  name : String
  present : Bool
  rank : Rank
  voting : Bool
  frozen : Bool
  authToken : Option String
  deriving DecidableEq, Repr

/-- Modelled from the spec: `SpeakerEvent` is declared in
`caucus/SpeakerFeed.tsx`, which is not under `src/`; its fields `who`,
`stance` and `duration` are taken from the literal built in
`CaucusQueuer.setStance`. -/
structure SpeakerEvent where
  who : String
  stance : Stance
  duration : Nat
  deriving DecidableEq, Repr

/-- Modelled from the spec: `MemberOption` is declared in `constants.ts`,
which is not under `src/`; `CaucusQueuer` reads its `text` field and the
dropdown uses `key` and `value`. -/
structure MemberOption where
  key : String
  value : String
  text : String
  deriving DecidableEq, Repr

/-- Modelled from the spec: `TimerData` and `DEFAULT_TIMER` live in
`Timer.tsx`, which is not under `src/`. The claims only inspect the
`remaining` field, which `DEFAULT_CAUCUS` overrides via spread syntax;
the remaining fields are carried opaquely. -/
structure TimerData where
  elapsed : Nat
  remaining : Nat
  ticking : Bool
  deriving DecidableEq, Repr

/-- Modelled from the spec: the default timer record imported from
`Timer.tsx` (not under `src/`); every use in `src/` overrides
`remaining` with a spread. -/
def DEFAULT_TIMER : TimerData :=
  { elapsed := 0, remaining := 60, ticking := false }

/-- The enum `CaucusStatus` from `Caucus.tsx`. -/
inductive CaucusStatus where
  | Open
  | Closed
  deriving DecidableEq, Repr

/-- The interface `CaucusData` from `Caucus.tsx`. Optional fields
(`speakerDuration?`, `speakerUnit?`, `queueIsPublic?`, `speaking?`,
`queue?`, `history?`) are `Option`s; the queue and history records are
association lists keyed by push IDs. -/
structure CaucusData where
  name : String
  topic : String
  status : CaucusStatus
  speakerTimer : TimerData
  speakerDuration : Option Nat
  speakerUnit : Option Unit
  caucusTimer : TimerData
  queueIsPublic : Option Bool
  speaking : Option SpeakerEvent
  queue : Option (List (String × SpeakerEvent))
  history : Option (List (String × SpeakerEvent))
  deriving DecidableEq, Repr

/-- The constant `DEFAULT_CAUCUS_TIME_SECONDS = 10 * 60` from `Caucus.tsx`. -/
def DEFAULT_CAUCUS_TIME_SECONDS : Nat := 10 * 60

/-- The constant `DEFAULT_SPEAKER_TIME_SECONDS = 1 * 60` from `Caucus.tsx`. -/
def DEFAULT_SPEAKER_TIME_SECONDS : Nat := 1 * 60

/-- The function `recoverUnit` from `Caucus.tsx`:
`caucus ? (caucus.speakerUnit || Unit.Seconds) : Unit.Seconds`.
Both enum values of `Unit` are truthy strings, so `||` only falls through
when `speakerUnit` is `undefined`. -/
def recoverUnit (caucus : Option CaucusData) : Unit :=
  match caucus with
  | some c => c.speakerUnit.getD Unit.Seconds
  | none => Unit.Seconds

/-- The function `recoverDuration` from `Caucus.tsx`:
`caucus ? caucus.speakerDuration ? caucus.speakerDuration : undefined : undefined`.
The inner ternary tests JS truthiness of the number, so a stored `0`
(falsy) also yields `undefined`. -/
def recoverDuration (caucus : Option CaucusData) : Option Nat :=
  match caucus with
  | some c =>
    match c.speakerDuration with
    | some d => if d = 0 then none else some d
    | none => none
  | none => none

/-- The record `DEFAULT_CAUCUS` from `Caucus.tsx`. -/
def DEFAULT_CAUCUS : CaucusData :=
  { name := "untitled caucus"
    topic := ""
    status := CaucusStatus.Open
    speakerTimer := { DEFAULT_TIMER with remaining := DEFAULT_SPEAKER_TIME_SECONDS }
    speakerDuration := some DEFAULT_SPEAKER_TIME_SECONDS
    speakerUnit := some Unit.Seconds
    caucusTimer := { DEFAULT_TIMER with remaining := DEFAULT_CAUCUS_TIME_SECONDS }
    queueIsPublic := some false
    speaking := none
    queue := some []
    history := some [] }

/-- Result of evaluating a JS expression that may throw: `ok` carries the
value, `typeError` is the `TypeError` raised when a field of `undefined`
is read. -/
inductive JsResult (α : Type) where
  | ok (a : α)
  | typeError
  deriving DecidableEq, Repr

/-- Association lookup: the JS record read `members[id]`, yielding
`undefined` (`none`) when the key is absent. -/
def lookupRec {α : Type} : List (String × α) → String → Option α
  | [], _ => none
  | (k, v) :: rest, key => if k = key then some v else lookupRec rest key

/-- Modelled from the spec: `getID` is imported from `../../utils`, which
is not under `src/`. Its callers (`getNation`) use its result as a key
into the members record whose member is named by the nation cookie, so it
returns the key of the first member whose `name` equals the given name,
and `undefined` (`none`) when no member matches. -/
def getID (members : List (String × MemberData)) (name : String) : Option String :=
  (members.filter (fun p => p.2.name = name)).head?.map (fun p => p.1)

/-- The function `getNation` from `caucus/CaucusQueuer.tsx`. The two `getCookie` reads
are inputs: `nationCookie` and `authTokenCookie` are the cookie values,
`none` standing for an unset cookie (cookie storage is out of scope per
the spec). `if (props.members)` is truthy for the empty record, and
`if (nation)` is falsy for the empty string. The read
`members[id].authToken` throws a `TypeError` when `id` is `undefined` or
absent from the record, which `JsResult.typeError` records. -/
def getNation (members : Option (List (String × MemberData)))
    (nationCookie authTokenCookie : Option String) :
    JsResult (Option MemberData) :=
  match members with
  | none => JsResult.ok none
  | some ms =>
    match nationCookie with
    | none => JsResult.ok none
    | some nation =>
      if nation = "" then JsResult.ok none
      else
        match getID ms nation with
        | none => JsResult.typeError
        | some id =>
          match lookupRec ms id with
          | none => JsResult.typeError
          | some m =>
            if authTokenCookie = m.authToken then JsResult.ok (some m)
            else JsResult.ok none

/-- The function `setStance` from `caucus/CaucusQueuer.tsx`, as the write it performs:
`some e` is the `SpeakerEvent` pushed onto the caucus queue, `none` means
no state is written. `Number(recoverDuration(caucus))` is `NaN` (falsy)
when the duration is `undefined` and falsy when it is `0`, so the guard
`if (duration && queueMember)` passes exactly when both tests are truthy. -/
def setStance (caucus : Option CaucusData) (queueMember : Option MemberOption)
    (stance : Stance) : Option SpeakerEvent :=
  match recoverDuration caucus, queueMember with
  | some d, some qm =>
    if d = 0 then none
    else some
      { who := qm.text
        stance := stance
        duration := if recoverUnit caucus = Unit.Minutes then d * 60 else d }
  | _, _ => none

/-- The function `parseFlagName` from `Member.tsx`, parameterised by the country texts:
modelled from the spec, `COUNTRY_OPTIONS` lives in `../constants`, which
is not under `src/` (flag/country lookup tables are out of scope), so
`FLAG_NAME_SET` is the set of texts of an arbitrary country-option list,
here the list `countryTexts`. -/
def parseFlagName (countryTexts : List String) (name : String) : String :=
  if name ∈ countryTexts then name.toLower else "fm"

/-- Modelled from the spec: `CommitteeData` is declared in
`Committee.tsx`, which is not under `src/`; the nesting given by the spec
`committee → caucus → speaker queue/timers` gives a caucuses record, and
the `Login` query orders by `creatorUid`. -/
structure CommitteeData where
  name : String
  topic : String
  creatorUid : String
  caucuses : List (String × CaucusData)
  deriving DecidableEq, Repr

/-- The slice of `Login` component state touched by
`authStateChangedCallback` in `Auth.tsx`: `user` distinguishes
never-set (`none`), signed-out (`some none`) and signed-in
(`some (some uid)`); `committees` is `none` until loaded. -/
structure LoginState where
  loggingIn : Bool
  creating : Bool
  user : Option (Option String)
  committees : Option (List (String × CommitteeData))
  deriving DecidableEq, Repr

/-- The synchronous part of `Login.authStateChangedCallback`: the
`setState` call, paired with whether the committees query is issued
(`if (user)`). -/
def authStateChangedCallback (s : LoginState) (user : Option String) :
    LoginState × Bool :=
  ({ s with loggingIn := false, creating := false, user := some user },
   user.isSome)

/-- The `.then(committees => ...)` continuation of the committees query in
`Login.authStateChangedCallback`:
`this.setState({ committees: committees.val() || {} })`, where `val()`
returns `null` (`none`) when nothing is found. -/
def committeesQueryCallback (s : LoginState)
    (val : Option (List (String × CommitteeData))) : LoginState :=
  { s with committees := some (val.getD []) }

/-- Modelled from the spec: `recoverCaucus` is imported from
`Committee.tsx`, which is not under `src/`; it recovers the caucus with
the given ID from the (possibly still unloaded) committee, recovering
from missing fields by yielding `undefined`. -/
def recoverCaucus (committee : Option CommitteeData) (caucusID : String) :
    Option CaucusData :=
  match committee with
  | none => none
  | some c => lookupRec c.caucuses caucusID

/-- The two shapes `Caucus.render` in `Caucus.tsx` can return: the
`NotFound` view for a caucus ID, or `renderCaucus` applied to the
recovered caucus. -/
inductive CaucusRender where
  | notFound (id : String)
  | caucusView (caucus : Option CaucusData)
  deriving DecidableEq, Repr

/-- The method `Caucus.render` from `Caucus.tsx`:
`recoverCaucus` the caucus, then `if (!loading && !caucus)` return the
`NotFound` view, else `renderCaucus(caucus)`. A caucus object is always
truthy, so `!caucus` holds exactly when the caucus is `undefined`. -/
def caucusRender (loading : Bool) (committee : Option CommitteeData)
    (caucusID : String) : CaucusRender :=
  if loading = false ∧ recoverCaucus committee caucusID = none then
    CaucusRender.notFound caucusID
  else CaucusRender.caucusView (recoverCaucus committee caucusID)

/-- A concrete member record used to exercise `getNation`. -/
def franceMember : MemberData :=
  { name := "France", present := true, rank := Rank.Standard,
    voting := true, frozen := false, authToken := some "secret" }

theorem lookupRec_mem {α : Type} {l : List (String × α)} {k : String} {v : α}
    (h : lookupRec l k = some v) : (k, v) ∈ l := by
  induction l with
  | nil => simp [lookupRec] at h
  | cons p rest ih =>
    obtain ⟨k', v'⟩ := p
    by_cases hk : k' = k
    · subst hk
      simp [lookupRec] at h
      subst h
      exact List.mem_cons_self _ _
    · simp [lookupRec, hk] at h
      exact List.mem_cons_of_mem _ (ih h)

theorem lookupRec_isSome_of_mem {α : Type} {l : List (String × α)} {k : String} {v : α}
    (h : (k, v) ∈ l) : ∃ w, lookupRec l k = some w := by
  induction l with
  | nil => simp at h
  | cons p rest ih =>
    obtain ⟨k', v'⟩ := p
    by_cases hk : k' = k
    · exact ⟨v', by simp [lookupRec, hk]⟩
    · rcases List.mem_cons.mp h with h1 | h1
      · simp at h1
        exact absurd h1.1.symm hk
      · obtain ⟨w, hw⟩ := ih h1
        exact ⟨w, by simp [lookupRec, hk, hw]⟩

theorem assoc_mem_unique {α : Type} {l : List (String × α)} {k : String} {a b : α}
    (hnd : (l.map Prod.fst).Nodup) (ha : (k, a) ∈ l) (hb : (k, b) ∈ l) : a = b := by
  induction l with
  | nil => simp at ha
  | cons p rest ih =>
    obtain ⟨k', v'⟩ := p
    simp only [List.map_cons, List.nodup_cons] at hnd
    rcases List.mem_cons.mp ha with h1 | h1 <;> rcases List.mem_cons.mp hb with h2 | h2
    · simp at h1 h2
      rw [h1.2, h2.2]
    · simp at h1
      exact absurd (h1.1 ▸ List.mem_map_of_mem Prod.fst h2) hnd.1
    · simp at h2
      exact absurd (h2.1 ▸ List.mem_map_of_mem Prod.fst h1) hnd.1
    · exact ih hnd.2 h1 h2

theorem getID_eq_some {ms : List (String × MemberData)} {n id : String}
    (h : getID ms n = some id) : ∃ m, (id, m) ∈ ms ∧ m.name = n := by
  unfold getID at h
  cases hh : (ms.filter (fun p => p.2.name = n)).head? with
  | none => rw [hh] at h; simp at h
  | some p =>
    rw [hh] at h
    obtain ⟨hmem, hf⟩ := List.mem_filter.mp (List.mem_of_mem_head? (Option.mem_def.mpr hh))
    obtain ⟨k, v⟩ := p
    simp at h hf
    subst h
    exact ⟨v, hmem, hf⟩

theorem recoverDuration_ne_some_zero (caucus : Option CaucusData) :
    recoverDuration caucus ≠ some 0 := by
  cases caucus with
  | none => simp [recoverDuration]
  | some c =>
    cases h : c.speakerDuration with
    | none => simp [recoverDuration, h]
    | some d =>
      simp only [recoverDuration, h]
      split
      · simp
      · simp_all

/-- C1: for every caucus input, `recoverUnit` returns the stored
`speakerUnit` when the caucus is supplied and the field is present, and
falls back to `Unit.Seconds` when the caucus or its `speakerUnit` field is
missing. -/
theorem recoverUnit_spec (c : CaucusData) (u : Unit) :
    recoverUnit (some { c with speakerUnit := some u }) = u
  ∧ (c.speakerUnit = none → recoverUnit (some c) = Unit.Seconds)
  ∧ recoverUnit none = Unit.Seconds := by
  refine ⟨rfl, fun h => ?_, rfl⟩
  simp [recoverUnit, h]

/-- Witness for `recoverUnit_spec`: a present unit is returned, a missing
one defaults to seconds. -/
theorem recoverUnit_spec_witness :
    recoverUnit (some { DEFAULT_CAUCUS with speakerUnit := some Unit.Minutes }) = Unit.Minutes
  ∧ recoverUnit (some { DEFAULT_CAUCUS with speakerUnit := none }) = Unit.Seconds :=
  ⟨(recoverUnit_spec DEFAULT_CAUCUS Unit.Minutes).1,
   (recoverUnit_spec { DEFAULT_CAUCUS with speakerUnit := none } Unit.Minutes).2.1 rfl⟩

/-- C2 counterexample: a caucus whose `speakerDuration` field is present
with value `0` is mapped to `undefined` by `recoverDuration` (the inner
ternary tests JS truthiness and `0` is falsy), so the claim as stated
fails at this input. -/
theorem recoverDuration_zero_counterexample :
    ({ DEFAULT_CAUCUS with speakerDuration := some 0 } : CaucusData).speakerDuration = some 0
  ∧ recoverDuration (some { DEFAULT_CAUCUS with speakerDuration := some 0 }) = none :=
  ⟨rfl, rfl⟩

/-- C2 (amended): `recoverDuration` returns the stored `speakerDuration`
when the caucus is supplied and the field is present with a nonzero value,
and returns `undefined` when the caucus is missing, the field is missing,
or the stored value is `0`. -/
theorem recoverDuration_spec (c : CaucusData) (d : Nat) :
    (d ≠ 0 → recoverDuration (some { c with speakerDuration := some d }) = some d)
  ∧ recoverDuration (some { c with speakerDuration := some 0 }) = none
  ∧ (c.speakerDuration = none → recoverDuration (some c) = none)
  ∧ recoverDuration none = none := by
  refine ⟨fun h => ?_, rfl, fun h => ?_, rfl⟩
  · simp [recoverDuration, h]
  · simp [recoverDuration, h]

/-- Witness for `recoverDuration_spec`: a nonzero stored duration is
returned, a missing field yields `undefined`. -/
theorem recoverDuration_spec_witness :
    recoverDuration (some { DEFAULT_CAUCUS with speakerDuration := some 45 }) = some 45
  ∧ recoverDuration (some { DEFAULT_CAUCUS with speakerDuration := none }) = none :=
  ⟨(recoverDuration_spec DEFAULT_CAUCUS 45).1 (by decide),
   (recoverDuration_spec { DEFAULT_CAUCUS with speakerDuration := none } 45).2.2.1 rfl⟩

/-- C3: `setStance` pushes a queue entry if and only if a nonzero speaker
duration is recoverable from the caucus and a queue member is selected;
the pushed entry has the selected member text, the chosen stance, and the
recovered duration converted to seconds (times `60` for minutes); when it
does not push, no state is written (`none`). -/
theorem setStance_spec (caucus : Option CaucusData) (qm : Option MemberOption)
    (st : Stance) (e : SpeakerEvent) :
    (setStance caucus qm st = some e ↔
      ∃ d m, recoverDuration caucus = some d ∧ d ≠ 0 ∧ qm = some m ∧
        e = { who := m.text, stance := st,
              duration := if recoverUnit caucus = Unit.Minutes then d * 60 else d })
  ∧ (setStance caucus qm st = none ↔ recoverDuration caucus = none ∨ qm = none) := by
  constructor
  · constructor
    · intro h
      cases hd : recoverDuration caucus with
      | none => cases qm <;> simp [setStance, hd] at h
      | some d =>
        cases qm with
        | none => simp [setStance, hd] at h
        | some m =>
          by_cases hz : d = 0
          · simp [setStance, hd, hz] at h
          · simp only [setStance, hd, hz, if_false, if_neg hz, Option.some.injEq] at h
            exact ⟨d, m, rfl, hz, rfl, h.symm⟩
    · rintro ⟨d, m, hd, hz, rfl, rfl⟩
      simp [setStance, hd, hz]
  · constructor
    · intro h
      cases hd : recoverDuration caucus with
      | none => exact Or.inl rfl
      | some d =>
        cases qm with
        | none => exact Or.inr rfl
        | some m =>
          by_cases hz : d = 0
          · exact absurd (hz ▸ hd) (recoverDuration_ne_some_zero caucus)
          · simp [setStance, hd, hz] at h
    · intro h
      rcases h with h | h
      · cases qm <;> simp [setStance, h]
      · cases hd : recoverDuration caucus <;> simp [setStance, hd, h]

/-- Witness for `setStance_spec`: with the default caucus (duration `60`
seconds, unit seconds) and a selected member, pressing For pushes the
expected entry. -/
theorem setStance_spec_witness :
    setStance (some DEFAULT_CAUCUS)
      (some { key := "france", value := "france", text := "France" }) Stance.For
      = some { who := "France", stance := Stance.For, duration := 60 } :=
  ((setStance_spec (some DEFAULT_CAUCUS)
      (some { key := "france", value := "france", text := "France" }) Stance.For
      { who := "France", stance := Stance.For, duration := 60 }).1).mpr
    ⟨60, { key := "france", value := "france", text := "France" },
      rfl, by decide, rfl, rfl⟩

/-- C4 counterexample: the members prop being the empty record is truthy
in JS, so with a nation cookie set `getNation` reaches
`members[id].authToken` where `members[id]` is `undefined`, and throws a
`TypeError` instead of returning `null`. -/
theorem getNation_empty_members_counterexample :
    getNation (some []) (some "France") none = JsResult.typeError := by decide

/-- C4 (amended): `getNation` returns a member record only when the nation
cookie names an existing member and the authToken cookie equals that
member stored `authToken`; it returns `null` when the members prop is
absent, the nation cookie is unset or empty, or the token mismatches for
an existing member; and when the nation cookie is set to a nonempty name
matching no member the field read `members[id].authToken` throws a
`TypeError` instead of returning `null`. -/
theorem getNation_characterisation (ms : List (String × MemberData))
    (nation : String) (tok : Option String) :
    getNation none (some nation) tok = JsResult.ok none
  ∧ getNation (some ms) none tok = JsResult.ok none
  ∧ getNation (some ms) (some "") tok = JsResult.ok none
  ∧ (nation ≠ "" → getID ms nation = none →
      getNation (some ms) (some nation) tok = JsResult.typeError)
  ∧ (∀ id, nation ≠ "" → getID ms nation = some id →
      ∃ m, lookupRec ms id = some m ∧
        getNation (some ms) (some nation) tok
          = JsResult.ok (if tok = m.authToken then some m else none))
  ∧ ((ms.map Prod.fst).Nodup →
      ∀ m, getNation (some ms) (some nation) tok = JsResult.ok (some m) →
        m.name = nation ∧ tok = m.authToken) := by
  refine ⟨rfl, rfl, by simp [getNation], ?_, ?_, ?_⟩
  · intro h1 h2
    simp [getNation, h1, h2]
  · intro id h1 h2
    obtain ⟨m0, hm0, _⟩ := getID_eq_some h2
    obtain ⟨m, hm⟩ := lookupRec_isSome_of_mem hm0
    refine ⟨m, hm, ?_⟩
    by_cases ht : tok = m.authToken <;> simp [getNation, h1, h2, hm, ht]
  · intro hnd m hres
    by_cases h1 : nation = ""
    · simp [getNation, h1] at hres
    · cases hg : getID ms nation with
      | none => simp [getNation, h1, hg] at hres
      | some id =>
        cases hl : lookupRec ms id with
        | none => simp [getNation, h1, hg, hl] at hres
        | some mfound =>
          by_cases ht : tok = mfound.authToken
          · simp [getNation, h1, hg, hl, ht] at hres
            obtain ⟨m0, hm0, hname⟩ := getID_eq_some hg
            have hmem := lookupRec_mem hl
            have heq : mfound = m0 := assoc_mem_unique hnd hmem hm0
            refine ⟨?_, ?_⟩
            · rw [← hres, heq]
              exact hname
            · rw [← hres]
              exact ht
          · simp [getNation, h1, hg, hl, ht] at hres

/-- Witness for `getNation_characterisation`: with a singleton members
record with distinct keys, a matching nation cookie and a matching token,
the member returned is the one the cookie names, with the token equal to
its stored one. -/
theorem getNation_characterisation_witness :
    franceMember.name = "France" ∧ (some "secret" : Option String) = franceMember.authToken :=
  (getNation_characterisation [("fr", franceMember)] "France" (some "secret")).2.2.2.2.2
    (by decide) franceMember (by decide)

/-- C5: failing input for the totality claim: `members[id].authToken` is
dereferenced whenever members are present and a nonempty nation cookie is
set, with no check that the named member exists, so a nation cookie naming
no member makes `getNation` throw a `TypeError` rather than evaluate
totally. -/
theorem getNation_throws_on_unknown_nation :
    getNation (some [("fr", franceMember)]) (some "Germany") (some "secret")
      = JsResult.typeError := by decide

/-- C6: after an auth state change with a signed-in user the committees
query is issued, and its callback always stores a (possibly empty) record:
the empty record when the query returns no value, never leaving the state
`undefined` or `null`. -/
theorem login_committees_defaulted (s : LoginState) (uid : String)
    (val : Option (List (String × CommitteeData))) :
    (authStateChangedCallback s (some uid)).2 = true
  ∧ (committeesQueryCallback (authStateChangedCallback s (some uid)).1 none).committees
      = some []
  ∧ ((committeesQueryCallback (authStateChangedCallback s (some uid)).1 val).committees).isSome
      = true := by
  refine ⟨rfl, rfl, ?_⟩
  cases val <;> rfl

/-- C7: `DEFAULT_CAUCUS` equals the reference record of the claim: name,
empty topic, open status, speaker timer with `60` seconds remaining,
caucus timer with `600` seconds remaining, `speakerDuration 60`,
`speakerUnit` seconds, `queueIsPublic false`, and empty queue and history
records. -/
theorem DEFAULT_CAUCUS_spec :
    DEFAULT_CAUCUS.name = "untitled caucus"
  ∧ DEFAULT_CAUCUS.topic = ""
  ∧ DEFAULT_CAUCUS.status = CaucusStatus.Open
  ∧ DEFAULT_SPEAKER_TIME_SECONDS = 1 * 60
  ∧ DEFAULT_CAUCUS_TIME_SECONDS = 10 * 60
  ∧ DEFAULT_CAUCUS.speakerTimer.remaining = DEFAULT_SPEAKER_TIME_SECONDS
  ∧ DEFAULT_CAUCUS.speakerTimer.remaining = 60
  ∧ DEFAULT_CAUCUS.caucusTimer.remaining = DEFAULT_CAUCUS_TIME_SECONDS
  ∧ DEFAULT_CAUCUS.caucusTimer.remaining = 600
  ∧ DEFAULT_CAUCUS.speakerDuration = some 60
  ∧ DEFAULT_CAUCUS.speakerUnit = some Unit.Seconds
  ∧ DEFAULT_CAUCUS.queueIsPublic = some false
  ∧ DEFAULT_CAUCUS.queue = some []
  ∧ DEFAULT_CAUCUS.history = some [] := by decide

/-- C8: `Caucus.render` returns the `NotFound` view for the requested
caucus ID exactly when loading has finished and the loaded committee
contains no caucus with that ID; in every other case (still loading, or
the caucus exists) it renders the caucus view. -/
theorem caucusRender_spec (loading : Bool) (committee : Option CommitteeData)
    (caucusID : String) :
    (caucusRender loading committee caucusID = CaucusRender.notFound caucusID ↔
      loading = false ∧ recoverCaucus committee caucusID = none)
  ∧ (loading = true ∨ (recoverCaucus committee caucusID).isSome = true →
      caucusRender loading committee caucusID
        = CaucusRender.caucusView (recoverCaucus committee caucusID)) := by
  constructor
  · unfold caucusRender
    split
    · rename_i h
      simp [h]
    · rename_i h
      simp [h]
  · intro h
    unfold caucusRender
    split
    · rename_i hcond
      rcases h with h | h
      · rw [h] at hcond
        simp at hcond
      · rw [hcond.2] at h
        simp at h
    · rfl

/-- Witness for `caucusRender_spec`: while still loading the caucus view
is rendered. -/
theorem caucusRender_spec_witness :
    caucusRender true none "cid" = CaucusRender.caucusView none :=
  (caucusRender_spec true none "cid").2 (Or.inl rfl)

/-- C9: `recoverUnit` and `recoverDuration` are deterministic pure
functions of the caucus value alone: equal caucus inputs give equal
results. -/
theorem recover_deterministic (c1 c2 : Option CaucusData) (h : c1 = c2) :
    recoverUnit c1 = recoverUnit c2 ∧ recoverDuration c1 = recoverDuration c2 := by
  subst h
  exact ⟨rfl, rfl⟩

/-- Witness for `recover_deterministic` at the default caucus. -/
theorem recover_deterministic_witness :
    recoverUnit (some DEFAULT_CAUCUS) = recoverUnit (some DEFAULT_CAUCUS)
  ∧ recoverDuration (some DEFAULT_CAUCUS) = recoverDuration (some DEFAULT_CAUCUS) :=
  recover_deterministic (some DEFAULT_CAUCUS) (some DEFAULT_CAUCUS) rfl

/-- C10: `parseFlagName` is total: it returns the lowercased name when the
name appears among the country option texts, and the fallback flag name
`fm` for every other input. -/
theorem parseFlagName_spec (countryTexts : List String) (name : String) :
    (name ∈ countryTexts → parseFlagName countryTexts name = name.toLower)
  ∧ (name ∉ countryTexts → parseFlagName countryTexts name = "fm") := by
  constructor <;> intro h <;> simp [parseFlagName, h]

/-- Witness for `parseFlagName_spec`: a known country text is lowercased,
an unknown one falls back to `fm`. -/
theorem parseFlagName_spec_witness :
    parseFlagName ["France"] "France" = "France".toLower
  ∧ parseFlagName ["France"] "Atlantis" = "fm" :=
  ⟨(parseFlagName_spec ["France"] "France").1 (by decide),
   (parseFlagName_spec ["France"] "Atlantis").2 (by decide)⟩

end Muncoordinated
